import Mathlib

/-!
Shallow embedding of the core of the `image_baker` repository: the shader
catalogue loader / validator (`shader_manager.rs`), the GPU pipeline builder
and readback (`gpu_processor.rs`), the merge-generation state machine
(`mod.rs` / `state.rs`), the CPU blend routine (`core_logic.rs`) and the
image-load validation (`image_operations.rs`).

Modelling conventions:
- Rust `f32`/`f64` scalars are modelled by `F32`, carrying the exact numeric
  value as a rational (`val`, used by every comparison in the code) together
  with the IEEE-754 bit pattern (`bits`, used by `to_le_bytes`).  No code
  path under study links the two, so the pair is a faithful refinement.
- External crates (`porter_texture` image conversion, `toml` parsing,
  `wgpu` shader compilation, filesystem reads) are modelled as explicit
  parameters or as fields of the input data, mirroring the boundary at
  which `image_baker` calls them.
- Rust `Vec`/slices are Lean `List`s, `HashMap` lookups are association
  lists, `u8`/`u16`/`u32` arithmetic is `Nat` arithmetic with `% 2^w`
  written where a cast truncates.
-/

deriving instance DecidableEq for Except

namespace ImageBaker

/-- Model of a Rust `f32` scalar: the numeric value (for comparisons) and
the IEEE-754 binary32 bit pattern (for `to_le_bytes`). -/
structure F32 where
  val : Rat
  bits : Nat
deriving DecidableEq, Repr

/-- Rendering of an `f32` into an error message (the exact digit string the
Rust formatter produces is irrelevant to every claim; only which numbers
appear matters). -/
def fmtF32 (x : F32) : String := toString x.val

/-- `f32::to_le_bytes`: the four little-endian bytes of the bit pattern. -/
def F32.toLeBytes (x : F32) : List Nat :=
  [x.bits % 256, x.bits / 256 % 256, x.bits / 65536 % 256, x.bits / 16777216 % 256]

/-- Substring containment, used to state that error messages name the
offending data. -/
def strContains (s t : String) : Prop := ∃ a b : String, s = a ++ t ++ b

/-! ### Shader manifest data model (`mod.rs` lines 81-137) -/

/-- `ShaderMetadata` from `mod.rs`. -/
structure ShaderMetadata where
  name : String
  description : String
  author : String
  version : String
deriving DecidableEq, Repr

/-- `InputConfig` from `mod.rs` (an input slot declaration). -/
structure InputConfig where
  suffix : String
  description : String
  required : Bool
deriving DecidableEq, Repr

/-- `OutputConfig` from `mod.rs` (an output slot declaration). -/
structure OutputConfig where
  entry_point : String
  suffix : String
  description : String
  format : String
deriving DecidableEq, Repr

/-- `ShaderParameter` from `mod.rs`. -/
structure ShaderParameter where
  name : String
  param_type : String
  default : F32
  min : F32
  max : F32
  description : String
deriving DecidableEq, Repr

/-- `ShaderConfig` from `mod.rs` (the shader manifest). -/
structure ShaderConfig where
  shader : ShaderMetadata
  inputs : List InputConfig
  outputs : List OutputConfig
  parameters : List ShaderParameter
  shader_path : String
deriving DecidableEq, Repr

/-! ### Manifest-consistency validation (`shader_manager.rs` lines 214-247) -/

/-- The error message for `min > max` in `validate_shader_config`. -/
def minMaxErrorMsg (p : ShaderParameter) : String :=
  "Parameter \x27" ++ p.name ++ "\x27 has invalid range: min (" ++ fmtF32 p.min ++
    ") > max (" ++ fmtF32 p.max ++ ")"

/-- The error message for a default outside `[min, max]` in
`validate_shader_config`. -/
def defaultRangeErrorMsg (p : ShaderParameter) : String :=
  "Parameter \x27" ++ p.name ++ "\x27 default value (" ++ fmtF32 p.default ++
    ") is outside valid range [" ++ fmtF32 p.min ++ ", " ++ fmtF32 p.max ++ "]"

/-- The `for output in &config.outputs` loop of `validate_shader_config`. -/
def validateOutputs : List OutputConfig → Except String Unit
  | [] => .ok ()
  | o :: rest =>
    if o.entry_point.isEmpty then .error "Output entry point cannot be empty"
    else if o.suffix.isEmpty then .error "Output suffix cannot be empty"
    else validateOutputs rest

/-- The `for param in &config.parameters` loop of `validate_shader_config`. -/
def validateParams : List ShaderParameter → Except String Unit
  | [] => .ok ()
  | p :: rest =>
    if p.min.val > p.max.val then .error (minMaxErrorMsg p)
    else if p.default.val < p.min.val ∨ p.default.val > p.max.val then
      .error (defaultRangeErrorMsg p)
    else validateParams rest

/-- `validate_shader_config` from `shader_manager.rs`. -/
def validate_shader_config (config : ShaderConfig) : Except String Unit :=
  if config.outputs.isEmpty then .error "Shader must have at least one output"
  else
    match validateOutputs config.outputs with
    | .error e => .error e
    | .ok () => validateParams config.parameters

/-- `Result::is_ok` for the `Except` model. -/
def exceptIsOk {ε α : Type} : Except ε α → Bool
  | .ok _ => true
  | .error _ => false

/-- The range condition `min <= default <= max` on a parameter. -/
def paramRangeOk (p : ShaderParameter) : Prop :=
  p.min.val ≤ p.default.val ∧ p.default.val ≤ p.max.val

instance (p : ShaderParameter) : Decidable (paramRangeOk p) := by
  unfold paramRangeOk; infer_instance

lemma not_paramRangeOk_iff (p : ShaderParameter) :
    ¬ paramRangeOk p ↔ p.default.val < p.min.val ∨ p.max.val < p.default.val := by
  unfold paramRangeOk
  rw [not_and_or, not_le, not_le]

lemma validateOutputs_ok_iff (l : List OutputConfig) :
    validateOutputs l = .ok () ↔ ∀ o ∈ l, o.entry_point ≠ "" ∧ o.suffix ≠ "" := by
  induction l with
  | nil => simp [validateOutputs]
  | cons o rest ih =>
    by_cases h1 : o.entry_point = ""
    · simp [validateOutputs, String.isEmpty_iff, h1]
    · by_cases h2 : o.suffix = ""
      · simp [validateOutputs, String.isEmpty_iff, h1, h2]
      · simp [validateOutputs, String.isEmpty_iff, h1, h2, ih]

lemma validateParams_ok_iff (l : List ShaderParameter) :
    validateParams l = .ok () ↔ ∀ p ∈ l, paramRangeOk p := by
  induction l with
  | nil => simp [validateParams]
  | cons p rest ih =>
    by_cases h1 : p.min.val > p.max.val
    · simp only [validateParams, h1, if_true, List.mem_cons]
      constructor
      · intro h; cases h
      · intro h
        rcases h p (Or.inl rfl) with ⟨hmd, hdm⟩
        exact absurd (hmd.trans hdm) (not_le.mpr h1)
    · by_cases h2 : p.default.val < p.min.val ∨ p.default.val > p.max.val
      · simp only [validateParams, h1, if_false, h2, if_true, List.mem_cons]
        constructor
        · intro h; cases h
        · intro h
          exact absurd h2 (by
            rcases h p (Or.inl rfl) with ⟨hmd, hdm⟩
            push_neg
            exact ⟨hmd, hdm⟩)
      · simp only [validateParams, h1, if_false, h2, ih, List.mem_cons, forall_eq_or_imp,
          iff_and_self]
        intro _
        push_neg at h2
        exact ⟨h2.1, h2.2⟩

lemma validateParams_first_error (l : List ShaderParameter) (p : ShaderParameter)
    (h : l.find? (fun q => !decide (paramRangeOk q)) = some p) :
    validateParams l =
      .error (if p.min.val > p.max.val then minMaxErrorMsg p else defaultRangeErrorMsg p) := by
  induction l with
  | nil => simp at h
  | cons q rest ih =>
    by_cases hq : paramRangeOk q
    · rw [List.find?_cons_of_neg _ (by simp [hq])] at h
      have hrange := hq
      rcases hrange with ⟨hmd, hdm⟩
      have h1 : ¬ q.min.val > q.max.val := not_lt.mpr (hmd.trans hdm)
      have h2 : ¬ (q.default.val < q.min.val ∨ q.default.val > q.max.val) := by
        push_neg; exact ⟨hmd, hdm⟩
      simpa [validateParams, h1, h2] using ih h
    · rw [List.find?_cons_of_pos _ (by simp [hq])] at h
      have hqp : q = p := by injection h
      subst hqp
      rcases (not_paramRangeOk_iff q).mp hq with hlt | hgt
      · by_cases h1 : q.min.val > q.max.val
        · simp [validateParams, h1]
        · have h2 : q.default.val < q.min.val ∨ q.default.val > q.max.val := Or.inl hlt
          simp [validateParams, h1, h2]
      · by_cases h1 : q.min.val > q.max.val
        · simp [validateParams, h1]
        · have h2 : q.default.val < q.min.val ∨ q.default.val > q.max.val := Or.inr hgt
          simp [validateParams, h1, h2]

lemma strContains_append_three (a t b : String) : strContains (a ++ t ++ b) t := ⟨a, b, rfl⟩

lemma exceptIsOk_eq_ok {ε : Type} (e : Except ε Unit) : exceptIsOk e = true ↔ e = .ok () := by
  cases e with
  | error a => simp [exceptIsOk]
  | ok a => cases a; simp [exceptIsOk]

lemma validate_shader_config_ok_iff (c : ShaderConfig) :
    validate_shader_config c = .ok () ↔
      (c.outputs ≠ [] ∧ (∀ o ∈ c.outputs, o.entry_point ≠ "" ∧ o.suffix ≠ "") ∧
        ∀ p ∈ c.parameters, paramRangeOk p) := by
  unfold validate_shader_config
  by_cases hempty : c.outputs = []
  · simp [hempty]
  · rw [if_neg (by simpa [List.isEmpty_iff] using hempty)]
    cases hout : validateOutputs c.outputs with
    | error e =>
      have hne : ¬ ∀ o ∈ c.outputs, o.entry_point ≠ "" ∧ o.suffix ≠ "" := by
        intro hall
        rw [(validateOutputs_ok_iff _).mpr hall] at hout
        cases hout
      simp [hempty, hne]
    | ok u =>
      cases u
      rw [validateOutputs_ok_iff] at hout
      simp [hempty, hout, validateParams_ok_iff]
      exact fun _ => hout

/-- C3: the manifest-consistency validator accepts exactly the manifests with
a non-empty output list whose outputs all have non-empty entry points and
suffixes and whose parameters all satisfy `min <= default <= max`; when the
output checks pass and a parameter violates its range condition, the error
message names the (first) offending parameter and the offending values
(`min` and `max` always, and the `default` in the out-of-range case). -/
theorem C3_manifest_validator (c : ShaderConfig) :
    (exceptIsOk (validate_shader_config c) = true ↔
      (c.outputs ≠ [] ∧ (∀ o ∈ c.outputs, o.entry_point ≠ "" ∧ o.suffix ≠ "") ∧
        ∀ p ∈ c.parameters, p.min.val ≤ p.default.val ∧ p.default.val ≤ p.max.val)) ∧
    (∀ p, c.outputs ≠ [] → (∀ o ∈ c.outputs, o.entry_point ≠ "" ∧ o.suffix ≠ "") →
      c.parameters.find? (fun q => !decide (paramRangeOk q)) = some p →
      ∃ msg, validate_shader_config c = .error msg ∧
        strContains msg p.name ∧ strContains msg (fmtF32 p.min) ∧
        strContains msg (fmtF32 p.max) ∧
        (¬ p.min.val > p.max.val → strContains msg (fmtF32 p.default))) := by
  constructor
  · rw [exceptIsOk_eq_ok, validate_shader_config_ok_iff]
    simp [paramRangeOk]
  · intro p hne hall hfind
    have hout : validateOutputs c.outputs = .ok () := (validateOutputs_ok_iff c.outputs).mpr hall
    have hv : validate_shader_config c =
        .error (if p.min.val > p.max.val then minMaxErrorMsg p else defaultRangeErrorMsg p) := by
      unfold validate_shader_config
      rw [if_neg (by simpa [List.isEmpty_iff] using hne), hout]
      exact validateParams_first_error c.parameters p hfind
    by_cases hmm : p.min.val > p.max.val
    · refine ⟨minMaxErrorMsg p, by simpa [hmm] using hv, ?_, ?_, ?_, fun h => absurd hmm h⟩
      · exact ⟨"Parameter \x27",
          "\x27 has invalid range: min (" ++ fmtF32 p.min ++ ") > max (" ++ fmtF32 p.max ++ ")",
          by simp [minMaxErrorMsg, String.append_assoc]⟩
      · exact ⟨"Parameter \x27" ++ p.name ++ "\x27 has invalid range: min (",
          ") > max (" ++ fmtF32 p.max ++ ")",
          by simp [minMaxErrorMsg, String.append_assoc]⟩
      · exact ⟨"Parameter \x27" ++ p.name ++ "\x27 has invalid range: min (" ++ fmtF32 p.min ++
            ") > max (", ")", by simp [minMaxErrorMsg, String.append_assoc]⟩
    · refine ⟨defaultRangeErrorMsg p, by simpa [hmm] using hv, ?_, ?_, ?_, fun _ => ?_⟩
      · exact ⟨"Parameter \x27",
          "\x27 default value (" ++ fmtF32 p.default ++ ") is outside valid range [" ++
            fmtF32 p.min ++ ", " ++ fmtF32 p.max ++ "]",
          by simp [defaultRangeErrorMsg, String.append_assoc]⟩
      · exact ⟨"Parameter \x27" ++ p.name ++ "\x27 default value (" ++ fmtF32 p.default ++
            ") is outside valid range [", ", " ++ fmtF32 p.max ++ "]",
          by simp [defaultRangeErrorMsg, String.append_assoc]⟩
      · exact ⟨"Parameter \x27" ++ p.name ++ "\x27 default value (" ++ fmtF32 p.default ++
            ") is outside valid range [" ++ fmtF32 p.min ++ ", ", "]",
          by simp [defaultRangeErrorMsg, String.append_assoc]⟩
      · exact ⟨"Parameter \x27" ++ p.name ++ "\x27 default value (",
          ") is outside valid range [" ++ fmtF32 p.min ++ ", " ++ fmtF32 p.max ++ "]",
          by simp [defaultRangeErrorMsg, String.append_assoc]⟩

/-- A concrete manifest whose single parameter has `default = 2` outside
`[0, 1]`, with a well-formed output list. -/
def c3SampleConfig : ShaderConfig :=
  { shader := ⟨"sample", "d", "a", "1"⟩
    inputs := []
    outputs := [⟨"fs_main", "_x", "out", "Rgba8Unorm"⟩]
    parameters := [⟨"power", "float", ⟨2, 0x40000000⟩, ⟨0, 0⟩, ⟨1, 0x3F800000⟩, "p"⟩]
    shader_path := "" }

/-- Witness for C3 at a concrete manifest with an out-of-range default. -/
theorem C3_manifest_validator_witness :
    ∃ msg, validate_shader_config c3SampleConfig = .error msg ∧
      strContains msg "power" ∧ strContains msg (fmtF32 ⟨0, 0⟩) ∧
      strContains msg (fmtF32 ⟨1, 0x3F800000⟩) ∧
      (¬ (0 : Rat) > 1 → strContains msg (fmtF32 ⟨2, 0x40000000⟩)) :=
  (C3_manifest_validator c3SampleConfig).2 ⟨"power", "float", ⟨2, 0x40000000⟩, ⟨0, 0⟩,
    ⟨1, 0x3F800000⟩, "p"⟩ (by decide) (by decide) (by decide)

/-! ### Decoded images and the image-load entry point (`image_operations.rs`) -/

/-- An RGBA pixel (channel values are `u8` bytes). -/
structure Pixel where
  r : Nat
  g : Nat
  b : Nat
  a : Nat
deriving DecidableEq, Repr

/-- A decoded image (`image::DynamicImage`): dimensions plus a pixel lookup,
as exposed through `dimensions()` and `get_pixel`. -/
structure Img where
  width : Nat
  height : Nat
  pix : Nat → Nat → Pixel

/-- `validate_image_dimensions` from `image_operations.rs`. -/
def validate_image_dimensions (img : Img) : Bool :=
  decide (0 < img.width) && decide (0 < img.height) &&
    decide (img.width ≤ 8192) && decide (img.height ≤ 8192)

/-- `load_image_async` from `image_operations.rs`, with the external
`image::open` decode step supplied as its already-computed result. -/
def load_image_async (decoded : Except String Img) : Except String Img :=
  match decoded with
  | .error e => .error ("Failed to open image: " ++ e)
  | .ok img =>
    if validate_image_dimensions img then .ok img
    else .error "Image dimensions are invalid or too large (max 8192x8192)"

/-- C10: for every decoded image, the image-load entry point returns the
image exactly when both dimensions are in `[1, 8192]`; otherwise it returns
an error that mentions the `8192x8192` limit. -/
theorem C10_image_load_dimension_cap (img : Img) :
    (load_image_async (.ok img) = .ok img ↔
      (0 < img.width ∧ 0 < img.height ∧ img.width ≤ 8192 ∧ img.height ≤ 8192)) ∧
    (¬ (0 < img.width ∧ 0 < img.height ∧ img.width ≤ 8192 ∧ img.height ≤ 8192) →
      ∃ msg, load_image_async (.ok img) = .error msg ∧ strContains msg "8192x8192") := by
  have hval : validate_image_dimensions img = true ↔
      (0 < img.width ∧ 0 < img.height ∧ img.width ≤ 8192 ∧ img.height ≤ 8192) := by
    simp [validate_image_dimensions, and_assoc]
  constructor
  · by_cases hv : validate_image_dimensions img
    · simp [load_image_async, hv, hval.mp hv]
    · simp only [load_image_async, hv, if_false, Bool.false_eq_true]
      constructor
      · intro h; cases h
      · intro h; exact absurd (hval.mpr h) hv
  · intro h
    have hv : validate_image_dimensions img = false := by
      by_cases hv' : validate_image_dimensions img = true
      · exact absurd (hval.mp hv') h
      · simpa using hv'
    refine ⟨"Image dimensions are invalid or too large (max 8192x8192)",
      by simp [load_image_async, hv], ?_⟩
    exact ⟨"Image dimensions are invalid or too large (max ", ")", by decide⟩

/-- A decoded image wider than the 8192 cap. -/
def c10WideImg : Img := ⟨10000, 5, fun _ _ => ⟨0, 0, 0, 0⟩⟩

/-- Witness for C10: a 10000x5 image is rejected with the limit in the
message. -/
theorem C10_image_load_dimension_cap_witness :
    ∃ msg, load_image_async (.ok c10WideImg) = .error msg ∧ strContains msg "8192x8192" :=
  (C10_image_load_dimension_cap c10WideImg).2 (by simp [c10WideImg])

/-! ### CPU blend routine `merge_images` (`core_logic.rs` lines 6-94)

The `f64` arithmetic used to build the two 256-entry LUTs is modelled with
exact rationals and round-half-away-from-zero, which is the behaviour of
`f64::round`.  `powf` is modelled by exact rational exponentiation for
integer exponents; at the exponent used by the claim (`1.0`) `powf` is
exact, and every rounding below happens at points where the `f64` result
and the exact rational agree.  The `image` crate's `resize` (taken only
when dimensions differ) is supplied as a parameter. -/

/-- `f64::round`: nearest integer, half-way cases away from zero. -/
def ratRoundHalfAway (q : Rat) : Int :=
  if 0 ≤ q then ⌊q + 1/2⌋ else -⌊-q + 1/2⌋

/-- `.clamp(0.0, 255.0) as u8` applied to an already-rounded value. -/
def clampToU8 (i : Int) : Nat := (max 0 (min 255 i)).toNat

/-- One entry of the AO power-curve LUT from `merge_images`. -/
def ao_lut (ao_contrast_power : Nat) (v : Nat) : Nat :=
  clampToU8 (ratRoundHalfAway (((v : Rat) / 255) ^ ao_contrast_power * 255))

/-- One entry of the specular linear-scale LUT from `merge_images`. -/
def spec_lut (specular_intensity : Rat) (v : Nat) : Nat :=
  clampToU8 (ratRoundHalfAway ((v : Rat) / 255 * specular_intensity * 255))

/-- `merge_images` from `core_logic.rs`.  `resize` stands for the `image`
crate's CatmullRom `resize`, invoked only when a map's dimensions differ
from the colour map's. -/
def merge_images (resize : Img → Nat → Nat → Img) (colour_map : Img)
    (specular_map occlusion_map : Option Img) (ao_contrast_power : Nat)
    (specular_intensity : Rat) : Img :=
  let width := colour_map.width
  let height := colour_map.height
  let resized_spec := specular_map.map fun s =>
    if s.width = width ∧ s.height = height then s else resize s width height
  let resized_occ := occlusion_map.map fun o =>
    if o.width = width ∧ o.height = height then o else resize o width height
  { width := width
    height := height
    pix := fun x y =>
      let colour_pixel := colour_map.pix x y
      let specular_pixel := resized_spec.map fun s => s.pix x y
      let occlusion_pixel := resized_occ.map fun o => o.pix x y
      let is_black : Bool := decide (colour_pixel.r < 38) && decide (colour_pixel.g < 38) &&
        decide (colour_pixel.b < 38)
      let baked := fun (c su ou : Nat) =>
        let adjusted_o := ao_lut ao_contrast_power ou
        let adjusted_s := spec_lut specular_intensity su
        (if is_black then adjusted_s * adjusted_o / 255 else c * adjusted_o / 255) % 256
      { r := baked colour_pixel.r ((specular_pixel.map Pixel.r).getD 255)
               ((occlusion_pixel.map Pixel.r).getD 255)
        g := baked colour_pixel.g ((specular_pixel.map Pixel.g).getD 255)
               ((occlusion_pixel.map Pixel.g).getD 255)
        b := baked colour_pixel.b ((specular_pixel.map Pixel.b).getD 255)
               ((occlusion_pixel.map Pixel.b).getD 255)
        a := colour_pixel.a } }

/-- The all-black 2x2 colour map of the C9 scenario. -/
def c9Colour : Img := ⟨2, 2, fun _ _ => ⟨0, 0, 0, 255⟩⟩

/-- The all-`[128,128,128,255]` 2x2 occlusion map of the C9 scenario. -/
def c9Occlusion : Img := ⟨2, 2, fun _ _ => ⟨128, 128, 128, 255⟩⟩

/-- C9 counterexample: in the claimed scenario the output channel value is
not `(127*128)/255 = 63`; the specular LUT at 255 with intensity `0.5`
rounds `127.5` away from zero to `128`, so the channel is
`(128*128)/255 = 64`. -/
theorem C9_counterexample :
    ((merge_images (fun i _ _ => i) c9Colour none (some c9Occlusion) 1 (1/2)).pix 0 0).r ≠
      127 * 128 / 255 := by
  norm_num [merge_images, ao_lut, spec_lut, ratRoundHalfAway, clampToU8, c9Colour,
    c9Occlusion]
  decide

/-- C9 (amended): `merge_baked` on the 2x2 all-black colour image with no
specular map, occlusion `[128,128,128,255]`, `ao_contrast_power = 1.0` and
`specular_intensity = 0.5` yields RGB `(128*128)/255 = 64` on every pixel
(specular defaults to 255, the intensity LUT rounds `127.5` up to 128, and
that is multiplied by the occlusion LUT value over 255), with alpha 255
passed through. -/
theorem C9_merge_scenario (resize : Img → Nat → Nat → Img) (x y : Nat) :
    (merge_images resize c9Colour none (some c9Occlusion) 1 (1/2)).pix x y =
      ⟨128 * 128 / 255, 128 * 128 / 255, 128 * 128 / 255, 255⟩ := by
  show Pixel.mk _ _ _ _ = _
  norm_num [merge_images, ao_lut, spec_lut, ratRoundHalfAway, clampToU8, c9Colour,
    c9Occlusion]
  decide

/-! ### Shader catalogue loading (`shader_manager.rs` lines 26-150)

The GPU-device initialisation and shaders-root discovery that precede the
scan abort the whole load with `Err` when they fail; the claims under
study concern the scan itself, so the model starts from the directory
entries of the located shaders root. -/

/-- The content of one shader candidate directory, as seen through the
external boundaries `load_and_validate_shader` crosses: the combined
result of reading and `toml`-parsing `config.toml`, and the combined
result of reading `shader.wgsl` and compiling it on the validation device
(`validate_shader_code`, panic-catching included). -/
structure Candidate where
  config_parse : Except String ShaderConfig
  wgsl_check : Except String Unit
  path : String
deriving Repr

/-- One immediate entry of the shaders root directory, as inspected by
`discover_shader_files`: whether it is a directory, whether `shader.wgsl`
and `config.toml` exist inside it, and its content. -/
structure DirEntry where
  is_dir : Bool
  has_shader_wgsl : Bool
  has_config_toml : Bool
  content : Candidate
deriving Repr

/-- `discover_shader_files`: keep exactly the subdirectories containing
both `shader.wgsl` and `config.toml`. -/
def discover_shader_files (entries : List DirEntry) : List DirEntry :=
  entries.filter fun e => e.is_dir && e.has_shader_wgsl && e.has_config_toml

/-- `load_and_validate_shader`: parse `config.toml`, record the shader
path, validate the WGSL code, then validate manifest consistency. -/
def load_and_validate_shader (c : Candidate) : Except String ShaderConfig :=
  match c.config_parse with
  | .error e => .error e
  | .ok cfg0 =>
    let cfg := { cfg0 with shader_path := c.path }
    match c.wgsl_check with
    | .error e => .error e
    | .ok () =>
      match validate_shader_config cfg with
      | .error e => .error e
      | .ok () => .ok cfg

/-- The per-candidate loop of `load_shaders`: push successes, count
failures. -/
def loadLoop (files : List DirEntry) (acc : List ShaderConfig × Nat) :
    List ShaderConfig × Nat :=
  files.foldl (fun acc e =>
    match load_and_validate_shader e.content with
    | .ok shader => (acc.1 ++ [shader], acc.2)
    | .error _ => (acc.1, acc.2 + 1)) acc

/-- `load_shaders` from `shader_manager.rs` (the scan over the located
shaders root). -/
def load_shaders (entries : List DirEntry) : List ShaderConfig × Nat :=
  let shader_files := discover_shader_files entries
  if shader_files.isEmpty then ([], 0)
  else loadLoop shader_files ([], 0)

lemma loadLoop_spec (files : List DirEntry) :
    ∀ l n, loadLoop files (l, n) =
      (l ++ files.filterMap (fun e => (load_and_validate_shader e.content).toOption),
       n + files.countP (fun e => !exceptIsOk (load_and_validate_shader e.content))) := by
  induction files with
  | nil => intro l n; simp [loadLoop]
  | cons e fs ih =>
    intro l n
    cases hl : load_and_validate_shader e.content with
    | ok shader =>
      have : loadLoop (e :: fs) (l, n) = loadLoop fs (l ++ [shader], n) := by
        simp [loadLoop, hl]
      rw [this, ih]
      simp [List.filterMap_cons, List.countP_cons, hl, Except.toOption, exceptIsOk]
    | error msg =>
      have : loadLoop (e :: fs) (l, n) = loadLoop fs (l, n + 1) := by
        simp [loadLoop, hl]
      rw [this, ih]
      simp [List.filterMap_cons, List.countP_cons, hl, Except.toOption, exceptIsOk]
      omega

lemma load_shaders_spec (entries : List DirEntry) :
    load_shaders entries =
      ((discover_shader_files entries).filterMap
         (fun e => (load_and_validate_shader e.content).toOption),
       (discover_shader_files entries).countP
         (fun e => !exceptIsOk (load_and_validate_shader e.content))) := by
  unfold load_shaders
  by_cases h : (discover_shader_files entries).isEmpty
  · rw [List.isEmpty_iff] at h
    simp [h]
  · rw [if_neg (by simpa using h)]
    simpa using loadLoop_spec _ [] 0

/-- C7: per-candidate failures never abort the scan (the loader always
returns the successful subset and counts every failure), and a catalogue
of exactly two candidate directories, one valid and one invalid, yields
exactly one loaded manifest and a failure count of exactly 1. -/
theorem C7_catalogue_partial_success :
    (∀ entries : List DirEntry,
      (load_shaders entries).1 = (discover_shader_files entries).filterMap
          (fun e => (load_and_validate_shader e.content).toOption) ∧
      (load_shaders entries).2 = (discover_shader_files entries).countP
          (fun e => !exceptIsOk (load_and_validate_shader e.content))) ∧
    (∀ e1 e2 : DirEntry,
      e1.is_dir = true → e1.has_shader_wgsl = true → e1.has_config_toml = true →
      e2.is_dir = true → e2.has_shader_wgsl = true → e2.has_config_toml = true →
      exceptIsOk (load_and_validate_shader e1.content) ≠
        exceptIsOk (load_and_validate_shader e2.content) →
      (load_shaders [e1, e2]).1.length = 1 ∧ (load_shaders [e1, e2]).2 = 1) := by
  constructor
  · intro entries
    rw [load_shaders_spec]
    exact ⟨rfl, rfl⟩
  · intro e1 e2 hd1 hs1 hc1 hd2 hs2 hc2 hx
    have hdisc : discover_shader_files [e1, e2] = [e1, e2] := by
      simp [discover_shader_files, hd1, hs1, hc1, hd2, hs2, hc2]
    rw [load_shaders_spec, hdisc]
    cases h1 : load_and_validate_shader e1.content with
    | ok s1 =>
      cases h2 : load_and_validate_shader e2.content with
      | ok s2 => rw [h1, h2] at hx; simp [exceptIsOk] at hx
      | error m2 =>
        simp [List.filterMap_cons, List.countP_cons, h1, h2, Except.toOption, exceptIsOk]
    | error m1 =>
      cases h2 : load_and_validate_shader e2.content with
      | ok s2 =>
        simp [List.filterMap_cons, List.countP_cons, h1, h2, Except.toOption, exceptIsOk]
      | error m2 => rw [h1, h2] at hx; simp [exceptIsOk] at hx

/-- A well-formed manifest (used to build a valid catalogue candidate). -/
def c7GoodConfig : ShaderConfig :=
  { shader := ⟨"good", "d", "a", "1"⟩
    inputs := [⟨"_c", "Colour", true⟩]
    outputs := [⟨"fs_main", "_o", "out", "Rgba8Unorm"⟩]
    parameters := []
    shader_path := "" }

/-- A valid candidate directory. -/
def c7GoodEntry : DirEntry :=
  ⟨true, true, true, ⟨.ok c7GoodConfig, .ok (), "shaders/good/shader.wgsl"⟩⟩

/-- An invalid candidate directory (its `config.toml` fails to parse). -/
def c7BadEntry : DirEntry :=
  ⟨true, true, true,
   ⟨.error "Failed to parse config.toml: missing field", .ok (), "shaders/bad/shader.wgsl"⟩⟩

/-- Witness for C7 on a concrete two-candidate catalogue. -/
theorem C7_catalogue_partial_success_witness :
    (load_shaders [c7GoodEntry, c7BadEntry]).1.length = 1 ∧
      (load_shaders [c7GoodEntry, c7BadEntry]).2 = 1 :=
  C7_catalogue_partial_success.2 c7GoodEntry c7BadEntry rfl rfl rfl rfl rfl rfl (by decide)

/-- C8: a subdirectory of the shaders root missing `shader.wgsl` or
`config.toml` (or both) is skipped entirely, at any position in the scan:
it is never a candidate, discovery is unchanged by its presence, and the
loader's output — failure count included — is unchanged. -/
theorem C8_missing_files_skipped (e : DirEntry) (pre post : List DirEntry)
    (h : e.has_shader_wgsl = false ∨ e.has_config_toml = false) :
    e ∉ discover_shader_files (pre ++ e :: post) ∧
    discover_shader_files (pre ++ e :: post) = discover_shader_files (pre ++ post) ∧
    load_shaders (pre ++ e :: post) = load_shaders (pre ++ post) := by
  have hpred : (e.is_dir && e.has_shader_wgsl && e.has_config_toml) = false := by
    rcases h with h | h <;> simp [h]
  refine ⟨?_, ?_, ?_⟩
  · intro hmem
    rw [discover_shader_files, List.mem_filter] at hmem
    rw [hpred] at hmem
    exact absurd hmem.2 (by simp)
  · simp [discover_shader_files, List.filter_append, List.filter_cons, hpred]
  · have hd : discover_shader_files (pre ++ e :: post) = discover_shader_files (pre ++ post) := by
      simp [discover_shader_files, List.filter_append, List.filter_cons, hpred]
    unfold load_shaders
    rw [hd]

/-- A directory entry missing its manifest file. -/
def c8NoManifestEntry : DirEntry :=
  ⟨true, true, false, ⟨.ok c7GoodConfig, .ok (), "shaders/incomplete/shader.wgsl"⟩⟩

/-- Witness for C8: inserting a manifest-less directory between two
candidates changes nothing. -/
theorem C8_missing_files_skipped_witness :
    c8NoManifestEntry ∉ discover_shader_files [c7GoodEntry, c8NoManifestEntry, c7BadEntry] ∧
    discover_shader_files [c7GoodEntry, c8NoManifestEntry, c7BadEntry] =
      discover_shader_files [c7GoodEntry, c7BadEntry] ∧
    load_shaders [c7GoodEntry, c8NoManifestEntry, c7BadEntry] =
      load_shaders [c7GoodEntry, c7BadEntry] :=
  C8_missing_files_skipped c8NoManifestEntry [c7GoodEntry] [c7BadEntry] (Or.inr rfl)

/-! ### Texture-converter state and the merge-generation machine
(`state.rs`, `mod.rs`, `core_logic.rs` lines 241-321) -/

/-- `Severity` from `status.rs`. -/
inductive Severity where
  | info
  | success
  | warning
  | error
deriving DecidableEq, Repr

/-- `StatusMessage` from `status.rs`. -/
structure StatusMessage where
  message : String
  severity : Severity
deriving DecidableEq, Repr

/-- `StatusMessage::info`. -/
def StatusMessage.info (m : String) : StatusMessage := ⟨m, .info⟩

/-- `StatusMessage::success`. -/
def StatusMessage.success (m : String) : StatusMessage := ⟨m, .success⟩

/-- `StatusMessage::error`. -/
def StatusMessage.mkError (m : String) : StatusMessage := ⟨m, .error⟩

/-- A loaded input image (`PorterImage`): dimensions, pixel format and raw
buffer, as exposed through `dimensions()` and `raw_buffer()`. -/
structure PImage where
  width : Nat
  height : Nat
  format : String
  data : List Nat
deriving DecidableEq, Repr

/-- `ImageBuffer` from `porter_image.rs`: an RGBA8 pixel buffer. -/
structure ImageBuffer where
  width : Nat
  height : Nat
  data : List Nat
deriving DecidableEq, Repr

/-- `ImageBuffer::from_raw`: accepts the data only at the exact packed
size. -/
def ImageBuffer.from_raw (width height : Nat) (data : List Nat) : Option ImageBuffer :=
  if data.length ≠ width * height * 4 then none
  else some ⟨width, height, data⟩

/-- An `iced` image handle as far as the core observes it: the dimensions
and bytes passed to `Handle::from_rgba`. -/
structure Handle where
  width : Nat
  height : Nat
  bytes : List Nat
deriving DecidableEq, Repr

/-- `create_fallback_handle` from `core_logic.rs`: the 2x2 red error
indicator. -/
def create_fallback_handle : Handle :=
  ⟨2, 2, [255, 0, 0, 255, 255, 0, 0, 255, 255, 0, 0, 255, 255, 0, 0, 255]⟩

/-- `buffer_to_handle` from `core_logic.rs`.  The `f64` finiteness and
normality checks and the `checked_mul` overflow guard cannot fire for
dimensions already known to lie in `[1, 8192]` (a `u32` converts to `f64`
exactly, and every positive integer value is a normal `f64`), and the
final dimension re-check duplicates the first two, so the checks that can
decide the result are the dimension bounds and the byte-length match. -/
def buffer_to_handle (buffer : ImageBuffer) : Handle :=
  if buffer.width < 1 ∨ buffer.height < 1 then create_fallback_handle
  else if buffer.width > 8192 ∨ buffer.height > 8192 then create_fallback_handle
  else if buffer.data.length ≠ buffer.width * buffer.height * 4 then create_fallback_handle
  else ⟨buffer.width, buffer.height, buffer.data⟩

/-- `DroppableImageSlot`: a labelled slot holding an optional image. -/
structure Slot where
  label : String
  image : Option PImage
deriving DecidableEq, Repr

/-- `TextureConverterState` from `state.rs`. -/
structure TextureConverterState where
  status : StatusMessage
  processing : Bool
  shaders : List ShaderConfig
  selected_shader : Option String
  shaders_loading : Bool
  parameter_values : List (String × List (String × F32))
  input_slots : List Slot
  input_slot_handles : List (Option Handle)
  input_slot_generations : List Nat
  outputs : List Handle
  output_buffers : List ImageBuffer
  output_descriptions : List String
  current_output_index : Nat
  merge_generation : Nat
  is_saving : Bool
  parameter_debounce_generation : Nat
deriving DecidableEq, Repr

/-- `TextureConverterState::get_selected_shader`. -/
def get_selected_shader (s : TextureConverterState) : Option ShaderConfig :=
  s.selected_shader.bind fun name => s.shaders.find? fun sh => sh.shader.name == name

/-- `TextureConverterState::all_required_slots_filled`. -/
def all_required_slots_filled (s : TextureConverterState) : Bool :=
  match get_selected_shader s with
  | some shader =>
    shader.inputs.enum.all fun ic =>
      !(ic.2.required && (match s.input_slots.get? ic.1 with
        | some slot => slot.image.isNone
        | none => false))
  | none => false

/-- `TextureConverterState::set_outputs`: replace all outputs, handles and
descriptions wholesale and reset the index. -/
def set_outputs (s : TextureConverterState) (outputs : List (ImageBuffer × String)) :
    TextureConverterState :=
  { s with
    outputs := outputs.map fun o => buffer_to_handle o.1
    output_buffers := outputs.map Prod.fst
    output_descriptions := outputs.map Prod.snd
    current_output_index := 0 }

/-- `TextureSplitter::trigger_merge_from_slots`: the state change performed
when a render is triggered, paired with the generation value carried by the
spawned `process_images` task (`none` when nothing is spawned). -/
def trigger_merge_from_slots (s : TextureConverterState) :
    TextureConverterState × Option Nat :=
  if !(all_required_slots_filled s) then (s, none)
  else
    match get_selected_shader s with
    | some _ =>
      let images := s.input_slots.filterMap Slot.image
      if images.isEmpty then (s, none)
      else
        ({ s with
            processing := true
            merge_generation := s.merge_generation + 1
            status := StatusMessage.info "Processing..." },
         some (s.merge_generation + 1))
    | none => (s, none)

/-- `TextureSplitter::on_merge_completed`: apply a completed render result
carrying `generation`, discarding it when the generation is stale. -/
def on_merge_completed (s : TextureConverterState)
    (result : Except String (List (ImageBuffer × String))) (generation : Nat) :
    TextureConverterState :=
  if generation ≠ s.merge_generation then s
  else
    let s1 := { s with processing := false }
    match result with
    | .ok outputs =>
      let s2 := set_outputs s1 outputs
      if s2.outputs.length > 1 then
        let msg := "Processing complete - " ++ toString s2.outputs.length ++ " outputs generated"
        { s2 with status := StatusMessage.success msg }
      else { s2 with status := StatusMessage.success "Processing complete" }
    | .error e => { s1 with status := StatusMessage.mkError ("Processing failed: " ++ e) }

lemma trigger_merge_gen (s s' : TextureConverterState) (g : Nat)
    (h : trigger_merge_from_slots s = (s', some g)) :
    g = s.merge_generation + 1 ∧ s'.merge_generation = g := by
  unfold trigger_merge_from_slots at h
  by_cases hf : all_required_slots_filled s
  · rw [if_neg (by simp [hf])] at h
    cases hsel : get_selected_shader s with
    | none => rw [hsel] at h; simp at h
    | some sh =>
      rw [hsel] at h
      by_cases him : (s.input_slots.filterMap Slot.image).isEmpty
      · rw [if_pos him] at h; simp at h
      · rw [if_neg him] at h
        rw [Prod.mk.injEq] at h
        obtain ⟨h1, h2⟩ := h
        have hg : g = s.merge_generation + 1 := (Option.some.inj h2).symm
        exact ⟨hg, by rw [← h1, hg]⟩
  · rw [if_pos (by simp [hf])] at h
    simp at h

/-- C2: a completed render result is applied only when its generation equals
the current merge generation: a stale generation leaves the state entirely
unchanged, a current generation replaces the visible outputs, and in the
race where generation `N` completes after generation `N+1` has already been
triggered, `N` is discarded while `N+1`, on completion, is applied. -/
theorem C2_generation_invalidation :
    (∀ (s : TextureConverterState) (r : Except String (List (ImageBuffer × String))) (g : Nat),
      g ≠ s.merge_generation → on_merge_completed s r g = s) ∧
    (∀ (s : TextureConverterState) (outs : List (ImageBuffer × String)),
      (on_merge_completed s (.ok outs) s.merge_generation).output_buffers =
          outs.map Prod.fst ∧
      (on_merge_completed s (.ok outs) s.merge_generation).outputs =
          outs.map (fun o => buffer_to_handle o.1) ∧
      (on_merge_completed s (.ok outs) s.merge_generation).output_descriptions =
          outs.map Prod.snd) ∧
    (∀ (s s1 s2 : TextureConverterState) (g1 g2 : Nat)
        (r : Except String (List (ImageBuffer × String))),
      trigger_merge_from_slots s = (s1, some g1) →
      trigger_merge_from_slots s1 = (s2, some g2) →
      on_merge_completed s2 r g1 = s2 ∧
      ∀ outs, (on_merge_completed s2 (.ok outs) g2).output_buffers = outs.map Prod.fst) := by
  have ha : ∀ (s : TextureConverterState) (r : Except String (List (ImageBuffer × String)))
      (g : Nat), g ≠ s.merge_generation → on_merge_completed s r g = s := by
    intro s r g h
    unfold on_merge_completed
    rw [if_pos h]
  have hb : ∀ (s : TextureConverterState) (outs : List (ImageBuffer × String)),
      (on_merge_completed s (.ok outs) s.merge_generation).output_buffers =
          outs.map Prod.fst ∧
      (on_merge_completed s (.ok outs) s.merge_generation).outputs =
          outs.map (fun o => buffer_to_handle o.1) ∧
      (on_merge_completed s (.ok outs) s.merge_generation).output_descriptions =
          outs.map Prod.snd := by
    intro s outs
    unfold on_merge_completed
    rw [if_neg (by simp)]
    by_cases hl : 1 < outs.length <;>
      simp [set_outputs, hl]
  refine ⟨ha, hb, ?_⟩
  intro s s1 s2 g1 g2 r h1 h2
  obtain ⟨hg1, hs1⟩ := trigger_merge_gen s s1 g1 h1
  obtain ⟨hg2, hs2⟩ := trigger_merge_gen s1 s2 g2 h2
  have hstale : g1 ≠ s2.merge_generation := by
    rw [hs2, hg2, hs1]
    omega
  refine ⟨ha s2 r g1 hstale, fun outs => ?_⟩
  have := hb s2 outs
  rw [hs2] at this
  exact this.1

/-- A manifest with one required input, used to build a state from which a
render can be triggered. -/
def c2Shader : ShaderConfig :=
  { shader := ⟨"merge", "d", "a", "1"⟩
    inputs := [⟨"_c", "Colour", true⟩]
    outputs := [⟨"fs_main", "_o", "out", "Rgba8Unorm"⟩]
    parameters := []
    shader_path := "shaders/merge/shader.wgsl" }

/-- A loaded 2x2 input image. -/
def c2Image : PImage := ⟨2, 2, "R8G8B8A8Unorm", List.replicate 16 0⟩

/-- A state with the sample shader selected and its required slot filled. -/
def c2State : TextureConverterState :=
  { status := StatusMessage.info "Ready."
    processing := false
    shaders := [c2Shader]
    selected_shader := some "merge"
    shaders_loading := false
    parameter_values := [("merge", [])]
    input_slots := [⟨"Colour", some c2Image⟩]
    input_slot_handles := [none]
    input_slot_generations := [0]
    outputs := []
    output_buffers := []
    output_descriptions := []
    current_output_index := 0
    merge_generation := 0
    is_saving := false
    parameter_debounce_generation := 0 }

/-- Witness for C2: triggering twice from the sample state spawns renders
of generations 1 and 2, and generation 1's late completion is discarded. -/
theorem C2_generation_invalidation_witness :
    on_merge_completed (trigger_merge_from_slots (trigger_merge_from_slots c2State).1).1
        (.error "device lost") 1 =
      (trigger_merge_from_slots (trigger_merge_from_slots c2State).1).1 :=
  (C2_generation_invalidation.2.2 c2State (trigger_merge_from_slots c2State).1
    (trigger_merge_from_slots (trigger_merge_from_slots c2State).1).1 1 2
    (.error "device lost") (by decide) (by decide)).1

/-! ### GPU pipeline builder (`gpu_processor.rs`)

GPU objects are modelled by the data the CPU side passes into `wgpu` when
creating them: a texture by its label, size and uploaded texels; a bind
group layout by its entry list; a bind group by its entry list; the
parameters bind group by the uniform bytes written into its buffer.  The
external `porter_texture` RGBA8 conversion (`convert_to_rgba8` followed by
`raw_buffer`) is supplied as the `convert` parameter. -/

/-- `wgpu::Extent3d` with one array layer. -/
structure Extent3d where
  width : Nat
  height : Nat
deriving DecidableEq, Repr

/-- A GPU texture as determined by its descriptor and the bytes uploaded
through `write_texture` (format is always `Rgba8Unorm` here). -/
structure Texture where
  label : String
  width : Nat
  height : Nat
  data : List Nat
deriving DecidableEq, Repr

/-- `Texture::create_view` with the default descriptor views the whole
texture. -/
abbrev TextureView := Texture

/-- `create_view(&TextureViewDescriptor::default())`. -/
def Texture.create_view (t : Texture) : TextureView := t

/-- A sampler as configured by `create_sampler`. -/
structure Sampler where
  label : String
  address_mode : String
  mag_filter : String
  min_filter : String
  mipmap_filter : String
deriving DecidableEq, Repr

/-- `create_sampler` from `gpu_processor.rs`: clamp-to-edge addressing,
linear min/mag filtering, nearest mipmap filtering. -/
def create_sampler (idx : Nat) : Sampler :=
  ⟨"Sampler " ++ toString idx, "ClampToEdge", "Linear", "Linear", "Nearest"⟩

/-- `create_image_texture`: convert the image to RGBA8 via the external
`porter_texture` conversion and upload the bytes at the image's own
dimensions. -/
def create_image_texture (convert : PImage → Except String (List Nat))
    (img : PImage) (idx : Nat) : Except String Texture :=
  match convert img with
  | .error e => .error ("Failed to convert image to RGBA8: " ++ e)
  | .ok data => .ok ⟨"Input Texture " ++ toString idx, img.width, img.height, data⟩

/-- `create_placeholder_texture`: an opaque-white texture at the working
resolution. -/
def create_placeholder_texture (texture_size : Extent3d) (idx : Nat) : Texture :=
  ⟨"Input Texture " ++ toString idx ++ " (Placeholder)", texture_size.width,
   texture_size.height, List.replicate (texture_size.width * texture_size.height * 4) 255⟩

/-- The texture-creating loop of `create_input_textures`, over the
enumerated input slots. -/
def create_input_textures_loop (convert : PImage → Except String (List Nat))
    (images : List PImage) (texture_size : Extent3d) :
    List (Nat × InputConfig) → Except String (List Texture)
  | [] => .ok []
  | ic :: rest =>
    match (match images.get? ic.1 with
           | some img => create_image_texture convert img ic.1
           | none => .ok (create_placeholder_texture texture_size ic.1)) with
    | .error e => .error e
    | .ok t =>
      match create_input_textures_loop convert images texture_size rest with
      | .error e => .error e
      | .ok ts => .ok (t :: ts)

/-- `create_input_textures`: an image texture for slot `idx` when
`idx < images.len()`, a placeholder otherwise, plus one default view and
one sampler per slot. -/
def create_input_textures (convert : PImage → Except String (List Nat))
    (images : List PImage) (shader_config : ShaderConfig) (texture_size : Extent3d) :
    Except String (List Texture × List TextureView × List Sampler) :=
  match create_input_textures_loop convert images texture_size shader_config.inputs.enum with
  | .error e => .error e
  | .ok textures =>
    .ok (textures, textures.map Texture.create_view,
         (List.range shader_config.inputs.length).map create_sampler)

/-- The binding type of a bind-group layout entry. -/
inductive BindingType where
  | texture
  | sampler
  | uniformBuffer
deriving DecidableEq, Repr

/-- A `wgpu::BindGroupLayoutEntry`. -/
structure BindGroupLayoutEntry where
  binding : Nat
  visibility : String
  ty : BindingType
deriving DecidableEq, Repr

/-- A resource bound by a bind-group entry. -/
inductive BindingResource where
  | textureView (v : TextureView)
  | sampler (s : Sampler)
deriving DecidableEq, Repr

/-- A `wgpu::BindGroupEntry`. -/
structure BindGroupEntry where
  binding : Nat
  resource : BindingResource
deriving DecidableEq, Repr

/-- `create_texture_bind_group`: the layout entries (bindings `i*2` texture
and `i*2+1` sampler per declared input) and the bind-group entries (the
same bindings, resources taken from the zipped views and samplers). -/
def create_texture_bind_group (shader_config : ShaderConfig)
    (input_views : List TextureView) (input_samplers : List Sampler) :
    List BindGroupLayoutEntry × List BindGroupEntry :=
  let layout_entries := (List.range shader_config.inputs.length).flatMap fun i =>
    [⟨i * 2, "FRAGMENT", .texture⟩, ⟨i * 2 + 1, "FRAGMENT", .sampler⟩]
  let bind_group_entries := (input_views.zip input_samplers).enum.flatMap fun ivs =>
    [⟨ivs.1 * 2, .textureView ivs.2.1⟩, ⟨ivs.1 * 2 + 1, .sampler ivs.2.2⟩]
  (layout_entries, bind_group_entries)

/-- The 16-byte zero-padding loop of `create_parameters_bind_group`
(`while uniform_data.len() % 16 != 0 { uniform_data.push(0) }`). -/
def pad16 (l : List Nat) : List Nat :=
  if l.length % 16 = 0 then l else pad16 (l ++ [0])
termination_by (16 - l.length % 16) % 16
decreasing_by
  simp only [List.length_append, List.length_cons, List.length_nil]
  omega

/-- The parameters bind group: the uniform bytes written into the buffer
bound at binding 0. -/
structure ParamsBindGroup where
  binding : Nat
  buffer : List Nat
deriving DecidableEq, Repr

/-- `create_parameters_bind_group`: `(None, None)` for a parameterless
shader; otherwise each parameter's current (or default) value as its four
little-endian `f32` bytes in declaration order, zero-padded to a 16-byte
boundary, in a uniform buffer bound at binding 0. -/
def create_parameters_bind_group (shader_config : ShaderConfig)
    (parameter_values : List (String × F32)) :
    Option (List BindGroupLayoutEntry) × Option ParamsBindGroup :=
  if shader_config.parameters.isEmpty then (none, none)
  else
    let uniform_data := pad16 (shader_config.parameters.flatMap fun param =>
      ((parameter_values.lookup param.name).getD param.default).toLeBytes)
    (some [⟨0, "FRAGMENT", .uniformBuffer⟩], some ⟨0, uniform_data⟩)

/-- `create_pipeline_layout`: the texture layout alone, or the texture and
parameter layouts. -/
def create_pipeline_layout (texture_layout : List BindGroupLayoutEntry)
    (params_layout : Option (List BindGroupLayoutEntry)) :
    List (List BindGroupLayoutEntry) :=
  match params_layout with
  | some params => [texture_layout, params]
  | none => [texture_layout]

/-- `wgpu::COPY_BYTES_PER_ROW_ALIGNMENT`. -/
def COPY_BYTES_PER_ROW_ALIGNMENT : Nat := 256

/-- The padded row stride of `copy_texture_to_buffer`:
`(4*width).div_ceil(align) * align`. -/
def padded_bytes_per_row (width : Nat) : Nat :=
  (4 * width + COPY_BYTES_PER_ROW_ALIGNMENT - 1) / COPY_BYTES_PER_ROW_ALIGNMENT *
    COPY_BYTES_PER_ROW_ALIGNMENT

/-- `dst[dst_off .. dst_off + src.len()].copy_from_slice(src)`. -/
def copySlice (dst : List Nat) (dst_off : Nat) (src : List Nat) : List Nat :=
  dst.take dst_off ++ src ++ dst.drop (dst_off + src.length)

/-- The padding-stripping loop of `copy_texture_to_buffer`: starting from a
zeroed `width*height*4` buffer, row `y` is copied from the padded staging
bytes at offset `y * padded_bytes_per_row`. -/
def copy_texture_to_buffer_unpad (width height : Nat) (data : List Nat) : List Nat :=
  let bytes_per_row := 4 * width
  (List.range height).foldl
    (fun rgba y =>
      copySlice rgba (y * bytes_per_row)
        ((data.drop (y * padded_bytes_per_row width)).take bytes_per_row))
    (List.replicate (width * height * 4) 0)

lemma flatMap_blocks_get {α β : Type} (f : α → List β) (k : Nat) :
    ∀ (l : List α), (∀ a ∈ l, (f a).length = k) →
      ∀ (i : Nat) (x : α), l.get? i = some x →
        ((l.flatMap f).drop (k * i)).take k = f x := by
  intro l
  induction l with
  | nil => intro _ i x h; simp at h
  | cons a as ih =>
    intro hlen i x h
    have hk : (f a).length = k := hlen a (by simp)
    cases i with
    | zero =>
      simp only [List.get?] at h
      cases h
      rw [List.flatMap_cons, Nat.mul_zero, List.drop_zero, ← hk, List.take_left]
    | succ i =>
      have hoff : k * (i + 1) = (f a).length + k * i := by rw [hk]; ring
      rw [List.flatMap_cons, hoff, List.drop_append]
      exact ih (fun b hb => hlen b (by simp [hb])) i x (by simpa using h)

lemma flatMap_blocks_length {α β : Type} (f : α → List β) (k : Nat) :
    ∀ (l : List α), (∀ a ∈ l, (f a).length = k) → (l.flatMap f).length = k * l.length := by
  intro l
  induction l with
  | nil => intro _; simp
  | cons a as ih =>
    intro hlen
    rw [List.flatMap_cons, List.length_append, hlen a (by simp),
      ih (fun b hb => hlen b (by simp [hb])), List.length_cons]
    ring

lemma take_two_get {β : Type} (l : List β) (a b : β) (h : l.take 2 = [a, b]) :
    l.get? 0 = some a ∧ l.get? 1 = some b := by
  have h0 : (l.take 2).get? 0 = some a := by rw [h]; rfl
  have h1 : (l.take 2).get? 1 = some b := by rw [h]; rfl
  rw [List.get?_take (by norm_num)] at h0
  rw [List.get?_take (by norm_num)] at h1
  exact ⟨h0, h1⟩

lemma get?_of_drop_take {β : Type} (l : List β) (n : Nat) (a b : β)
    (h : (l.drop n).take 2 = [a, b]) :
    l.get? n = some a ∧ l.get? (n + 1) = some b := by
  obtain ⟨h0, h1⟩ := take_two_get _ a b h
  rw [List.get?_drop] at h0 h1
  constructor
  · simpa using h0
  · simpa using h1

lemma create_input_textures_loop_length (convert : PImage → Except String (List Nat))
    (images : List PImage) (texture_size : Extent3d) :
    ∀ (l : List (Nat × InputConfig)) (ts : List Texture),
      create_input_textures_loop convert images texture_size l = .ok ts →
      ts.length = l.length := by
  intro l
  induction l with
  | nil =>
    intro ts h
    simp only [create_input_textures_loop] at h
    cases h
    rfl
  | cons ic rest ih =>
    intro ts h
    simp only [create_input_textures_loop] at h
    cases h1 : (match images.get? ic.1 with
                | some img => create_image_texture convert img ic.1
                | none => .ok (create_placeholder_texture texture_size ic.1)) with
    | error e => rw [h1] at h; cases h
    | ok t =>
      rw [h1] at h
      cases h2 : create_input_textures_loop convert images texture_size rest with
      | error e => rw [h2] at h; cases h
      | ok ts' =>
        rw [h2] at h
        cases h
        simp [ih ts' h2]

/-- C1: for a manifest with `n` declared input slots, the bind-group layout
and the bind group built by `create_texture_bind_group` over the views and
samplers produced by `create_input_textures` bind, for every slot
`i < n`, the slot's texture at binding `2*i` and its sampler at binding
`2*i + 1`. -/
theorem C1_binding_indices (convert : PImage → Except String (List Nat))
    (images : List PImage) (shader_config : ShaderConfig) (texture_size : Extent3d)
    (textures : List Texture) (views : List TextureView) (samplers : List Sampler)
    (hok : create_input_textures convert images shader_config texture_size =
      .ok (textures, views, samplers))
    (i : Nat) (hi : i < shader_config.inputs.length) :
    ∃ v s, views.get? i = some v ∧ samplers.get? i = some s ∧
      (create_texture_bind_group shader_config views samplers).1.get? (2 * i) =
        some ⟨2 * i, "FRAGMENT", .texture⟩ ∧
      (create_texture_bind_group shader_config views samplers).1.get? (2 * i + 1) =
        some ⟨2 * i + 1, "FRAGMENT", .sampler⟩ ∧
      (create_texture_bind_group shader_config views samplers).2.get? (2 * i) =
        some ⟨2 * i, .textureView v⟩ ∧
      (create_texture_bind_group shader_config views samplers).2.get? (2 * i + 1) =
        some ⟨2 * i + 1, .sampler s⟩ := by
  unfold create_input_textures at hok
  cases hloop : create_input_textures_loop convert images texture_size
      shader_config.inputs.enum with
  | error e => rw [hloop] at hok; cases hok
  | ok ts =>
    rw [hloop] at hok
    injection hok with hok2
    rw [Prod.mk.injEq, Prod.mk.injEq] at hok2
    obtain ⟨h1, h2, h3⟩ := hok2
    subst h1
    subst h2
    subst h3
    have htslen : ts.length = shader_config.inputs.length := by
      rw [create_input_textures_loop_length convert images texture_size _ ts hloop,
        List.enum_length]
    have hvi : ∃ v, (ts.map Texture.create_view).get? i = some v := by
      cases hv : (ts.map Texture.create_view).get? i with
      | none =>
        rw [List.get?_eq_none] at hv
        simp [htslen] at hv
        omega
      | some v => exact ⟨v, rfl⟩
    obtain ⟨v, hv⟩ := hvi
    have hs : ((List.range shader_config.inputs.length).map create_sampler).get? i =
        some (create_sampler i) := by
      rw [List.get?_map, List.get?_range hi]
      rfl
    have hbL := flatMap_blocks_get
      (fun i => [(⟨i * 2, "FRAGMENT", .texture⟩ : BindGroupLayoutEntry),
                 ⟨i * 2 + 1, "FRAGMENT", .sampler⟩]) 2
      (List.range shader_config.inputs.length) (by intro a _; rfl) i i
      (List.get?_range hi)
    obtain ⟨hL0, hL1⟩ := get?_of_drop_take _ _ _ _ hbL
    have hzip : ((ts.map Texture.create_view).zip
        ((List.range shader_config.inputs.length).map create_sampler)).get? i =
        some (v, create_sampler i) :=
      (List.get?_zip_eq_some _ _ _ _).mpr ⟨hv, hs⟩
    have henum : (((ts.map Texture.create_view).zip
        ((List.range shader_config.inputs.length).map create_sampler)).enum).get? i =
        some (i, v, create_sampler i) := by
      rw [List.get?_enum, hzip]
      rfl
    have hbG := flatMap_blocks_get
      (fun ivs : Nat × TextureView × Sampler =>
        [(⟨ivs.1 * 2, .textureView ivs.2.1⟩ : BindGroupEntry),
         ⟨ivs.1 * 2 + 1, .sampler ivs.2.2⟩]) 2 _ (by intro a _; rfl) i
      (i, v, create_sampler i) henum
    obtain ⟨hG0, hG1⟩ := get?_of_drop_take _ _ _ _ hbG
    rw [Nat.mul_comm i 2] at hL0 hL1 hG0 hG1
    exact ⟨v, create_sampler i, hv, hs, hL0, hL1, hG0, hG1⟩

/-- The identity-as-RGBA8 conversion used for concrete instances: the
image's raw buffer already is its RGBA8 data. -/
def c1Convert : PImage → Except String (List Nat) := fun img => .ok img.data

/-- A 2x2 image for the C1 concrete instance. -/
def c1Image : PImage := ⟨2, 2, "R8G8B8A8Unorm", List.replicate 16 7⟩

/-- A manifest with two declared input slots, the second optional. -/
def c1Config : ShaderConfig :=
  { shader := ⟨"dual", "d", "a", "1"⟩
    inputs := [⟨"_c", "Colour", true⟩, ⟨"_n", "Normal", false⟩]
    outputs := [⟨"fs_main", "_o", "out", "Rgba8Unorm"⟩]
    parameters := []
    shader_path := "" }

/-- The textures `create_input_textures` produces for `c1Config` with one
supplied image: the uploaded image for slot 0, a placeholder for slot 1. -/
def c1Textures : List Texture :=
  [⟨"Input Texture 0", 2, 2, List.replicate 16 7⟩,
   ⟨"Input Texture 1 (Placeholder)", 2, 2, List.replicate 16 255⟩]

/-- Witness for C1 at slot `i = 1` of the concrete two-input manifest. -/
theorem C1_binding_indices_witness :
    ∃ v s,
      (c1Textures.map Texture.create_view).get? 1 = some v ∧
      ([create_sampler 0, create_sampler 1]).get? 1 = some s ∧
      (create_texture_bind_group c1Config (c1Textures.map Texture.create_view)
          [create_sampler 0, create_sampler 1]).1.get? (2 * 1) =
        some ⟨2 * 1, "FRAGMENT", .texture⟩ ∧
      (create_texture_bind_group c1Config (c1Textures.map Texture.create_view)
          [create_sampler 0, create_sampler 1]).1.get? (2 * 1 + 1) =
        some ⟨2 * 1 + 1, "FRAGMENT", .sampler⟩ ∧
      (create_texture_bind_group c1Config (c1Textures.map Texture.create_view)
          [create_sampler 0, create_sampler 1]).2.get? (2 * 1) =
        some ⟨2 * 1, .textureView v⟩ ∧
      (create_texture_bind_group c1Config (c1Textures.map Texture.create_view)
          [create_sampler 0, create_sampler 1]).2.get? (2 * 1 + 1) =
        some ⟨2 * 1 + 1, .sampler s⟩ :=
  C1_binding_indices c1Convert [c1Image] c1Config ⟨2, 2⟩ c1Textures
    (c1Textures.map Texture.create_view) [create_sampler 0, create_sampler 1]
    (by decide) 1 (by decide)

lemma create_input_textures_loop_spec (convert : PImage → Except String (List Nat))
    (images : List PImage) (texture_size : Extent3d) :
    ∀ (l : List (Nat × InputConfig)),
      (∀ ic ∈ l, ∀ img, images.get? ic.1 = some img → exceptIsOk (convert img) = true) →
      ∃ ts, create_input_textures_loop convert images texture_size l = .ok ts ∧
        ts.length = l.length ∧
        ∀ j ic, l.get? j = some ic →
          (images.get? ic.1 = none →
            ts.get? j = some (create_placeholder_texture texture_size ic.1)) ∧
          (∀ img, images.get? ic.1 = some img →
            ∃ data, convert img = .ok data ∧
              ts.get? j =
                some ⟨"Input Texture " ++ toString ic.1, img.width, img.height, data⟩) := by
  intro l
  induction l with
  | nil =>
    intro _
    refine ⟨[], rfl, rfl, ?_⟩
    intro j ic h
    simp at h
  | cons ic rest ih =>
    intro hconv
    obtain ⟨ts', hts', hlen', hspec'⟩ := ih fun b hb => hconv b (List.mem_cons_of_mem _ hb)
    cases himg : images.get? ic.1 with
    | none =>
      refine ⟨create_placeholder_texture texture_size ic.1 :: ts', ?_, by simp [hlen'], ?_⟩
      · simp only [create_input_textures_loop, himg, hts']
      · intro j jc hj
        cases j with
        | zero =>
          simp only [List.get?] at hj
          cases hj
          constructor
          · intro _; rfl
          · intro img himg2
            rw [himg] at himg2
            cases himg2
        | succ j => exact hspec' j jc (by simpa using hj)
    | some img =>
      have hok := hconv ic (by simp) img himg
      cases hc : convert img with
      | error e => rw [hc] at hok; simp [exceptIsOk] at hok
      | ok data =>
        refine ⟨⟨"Input Texture " ++ toString ic.1, img.width, img.height, data⟩ :: ts',
          ?_, by simp [hlen'], ?_⟩
        · simp only [create_input_textures_loop, himg, create_image_texture, hc, hts']
        · intro j jc hj
          cases j with
          | zero =>
            simp only [List.get?] at hj
            cases hj
            constructor
            · intro hnone
              rw [himg] at hnone
              cases hnone
            · intro img2 himg2
              rw [himg] at himg2
              cases himg2
              exact ⟨data, hc, rfl⟩
          | succ j => exact hspec' j jc (by simpa using hj)

/-- C4: with the working resolution taken from the first image (as
`process_images` does), `create_input_textures` succeeds whenever every
supplied image converts: every declared slot with no supplied image
receives the opaque-white placeholder texture at the working resolution,
and every slot with a supplied image receives that image's RGBA8
conversion at the image's own dimensions. -/
theorem C4_optional_placeholder (convert : PImage → Except String (List Nat))
    (img0 : PImage) (rest : List PImage) (shader_config : ShaderConfig)
    (hconv : ∀ img ∈ img0 :: rest, exceptIsOk (convert img) = true) :
    ∃ textures views samplers,
      create_input_textures convert (img0 :: rest) shader_config
          ⟨img0.width, img0.height⟩ = .ok (textures, views, samplers) ∧
      (∀ i, i < shader_config.inputs.length → (img0 :: rest).get? i = none →
        textures.get? i =
          some (create_placeholder_texture ⟨img0.width, img0.height⟩ i) ∧
        create_placeholder_texture ⟨img0.width, img0.height⟩ i =
          ⟨"Input Texture " ++ toString i ++ " (Placeholder)", img0.width, img0.height,
           List.replicate (img0.width * img0.height * 4) 255⟩) ∧
      (∀ i img, i < shader_config.inputs.length → (img0 :: rest).get? i = some img →
        ∃ data, convert img = .ok data ∧
          textures.get? i =
            some ⟨"Input Texture " ++ toString i, img.width, img.height, data⟩) := by
  obtain ⟨ts, hts, hlen, hspec⟩ :=
    create_input_textures_loop_spec convert (img0 :: rest) ⟨img0.width, img0.height⟩
      shader_config.inputs.enum
      (fun ic _ img himg => hconv img (List.get?_mem himg))
  have henum : ∀ i, i < shader_config.inputs.length →
      ∃ input, shader_config.inputs.enum.get? i = some (i, input) := by
    intro i hi
    cases hin : shader_config.inputs.get? i with
    | none =>
      rw [List.get?_eq_none] at hin
      omega
    | some input =>
      refine ⟨input, ?_⟩
      rw [List.get?_enum, hin]
      rfl
  refine ⟨ts, ts.map Texture.create_view,
    (List.range shader_config.inputs.length).map create_sampler, ?_, ?_, ?_⟩
  · unfold create_input_textures
    rw [hts]
  · intro i hi hnone
    obtain ⟨input, hin⟩ := henum i hi
    exact ⟨(hspec i (i, input) hin).1 hnone, rfl⟩
  · intro i img hi himg
    obtain ⟨input, hin⟩ := henum i hi
    exact (hspec i (i, input) hin).2 img himg

/-- Witness for C4: the two-slot manifest with one supplied image gets the
image texture in slot 0 and the placeholder in slot 1. -/
theorem C4_optional_placeholder_witness :
    ∃ textures views samplers,
      create_input_textures c1Convert [c1Image] c1Config
          ⟨c1Image.width, c1Image.height⟩ = .ok (textures, views, samplers) ∧
      (∀ i, i < c1Config.inputs.length → ([c1Image] : List PImage).get? i = none →
        textures.get? i =
          some (create_placeholder_texture ⟨c1Image.width, c1Image.height⟩ i) ∧
        create_placeholder_texture ⟨c1Image.width, c1Image.height⟩ i =
          ⟨"Input Texture " ++ toString i ++ " (Placeholder)", c1Image.width, c1Image.height,
           List.replicate (c1Image.width * c1Image.height * 4) 255⟩) ∧
      (∀ i img, i < c1Config.inputs.length → ([c1Image] : List PImage).get? i = some img →
        ∃ data, c1Convert img = .ok data ∧
          textures.get? i =
            some ⟨"Input Texture " ++ toString i, img.width, img.height, data⟩) :=
  C4_optional_placeholder c1Convert c1Image [] c1Config (by decide)

lemma pad16_eq : ∀ (k : Nat) (l : List Nat), (16 - l.length % 16) % 16 = k →
    pad16 l = l ++ List.replicate k 0 := by
  intro k
  induction k using Nat.strong_induction_on with
  | _ k ih =>
    intro l hk
    by_cases h : l.length % 16 = 0
    · rw [pad16, if_pos h]
      have hk0 : k = 0 := by omega
      simp [hk0]
    · rw [pad16, if_neg h]
      have hm : l.length % 16 < 16 := Nat.mod_lt _ (by norm_num)
      have hk1 : 1 ≤ k := by omega
      obtain ⟨m, rfl⟩ : ∃ m, k = m + 1 := ⟨k - 1, by omega⟩
      have hk' : (16 - (l ++ [0]).length % 16) % 16 = m := by
        simp only [List.length_append, List.length_cons, List.length_nil]
        omega
      rw [ih m (by omega) (l ++ [0]) hk', List.append_assoc]
      simp [List.replicate_succ]

lemma toLeBytes_length (x : F32) : x.toLeBytes.length = 4 := rfl

/-- C5: for a manifest with parameters, the uniform buffer holds each
parameter's current (or default) value as four little-endian `f32` bytes in
declaration order, zero-padded to a 16-byte boundary, and the pipeline
layout holds two bind-group layouts; with no parameters, no parameter bind
group or layout is created and the pipeline layout holds exactly one
bind-group layout. -/
theorem C5_uniform_parameter_packing (shader_config : ShaderConfig)
    (parameter_values : List (String × F32)) (texture_layout : List BindGroupLayoutEntry) :
    (shader_config.parameters = [] →
      create_parameters_bind_group shader_config parameter_values = (none, none) ∧
      (create_pipeline_layout texture_layout
        (create_parameters_bind_group shader_config parameter_values).1).length = 1) ∧
    (shader_config.parameters ≠ [] →
      ∃ bg, (create_parameters_bind_group shader_config parameter_values).2 = some bg ∧
        (create_pipeline_layout texture_layout
          (create_parameters_bind_group shader_config parameter_values).1).length = 2 ∧
        bg.buffer.length % 16 = 0 ∧
        (∀ i p, shader_config.parameters.get? i = some p →
          (bg.buffer.drop (4 * i)).take 4 =
            ((parameter_values.lookup p.name).getD p.default).toLeBytes) ∧
        bg.buffer.drop (4 * shader_config.parameters.length) =
          List.replicate ((16 - 4 * shader_config.parameters.length % 16) % 16) 0) := by
  constructor
  · intro hempty
    have he : shader_config.parameters.isEmpty := by simp [hempty]
    constructor
    · simp [create_parameters_bind_group, he]
    · simp [create_parameters_bind_group, he, create_pipeline_layout]
  · intro hne
    have he : ¬ shader_config.parameters.isEmpty = true := by
      simpa [List.isEmpty_iff] using hne
    set body := shader_config.parameters.flatMap
      (fun param => ((parameter_values.lookup param.name).getD param.default).toLeBytes)
      with hbody
    have hbodylen : body.length = 4 * shader_config.parameters.length :=
      flatMap_blocks_length _ 4 shader_config.parameters (fun a _ => toLeBytes_length _)
    have hpad : pad16 body = body ++ List.replicate ((16 - body.length % 16) % 16) 0 :=
      pad16_eq _ body rfl
    have hbg : (create_parameters_bind_group shader_config parameter_values).2 =
        some ⟨0, pad16 body⟩ := by
      simp only [create_parameters_bind_group, he, if_false, Bool.false_eq_true, ← hbody]
    refine ⟨⟨0, pad16 body⟩, hbg, ?_, ?_, ?_, ?_⟩
    · simp only [create_parameters_bind_group, he, if_false, Bool.false_eq_true,
        create_pipeline_layout]
      rfl
    · rw [hpad]
      simp only [List.length_append, List.length_replicate]
      omega
    · intro i p hp
      have hi : i < shader_config.parameters.length := by
        rcases List.get?_eq_some.mp hp with ⟨h, _⟩
        exact h
      have hslice := flatMap_blocks_get
        (fun param => ((parameter_values.lookup param.name).getD param.default).toLeBytes) 4
        shader_config.parameters (fun a _ => toLeBytes_length _) i p hp
      rw [hpad, List.drop_append_eq_append_drop]
      have hlen4 : 4 ≤ (body.drop (4 * i)).length := by
        rw [List.length_drop, hbodylen]
        omega
      rw [List.take_append_of_le_length hlen4]
      exact hslice
    · rw [hpad, ← hbodylen, List.drop_left]

/-- A manifest with a single float parameter. -/
def c5Config : ShaderConfig :=
  { shader := ⟨"tint", "d", "a", "1"⟩
    inputs := [⟨"_c", "Colour", true⟩]
    outputs := [⟨"fs_main", "_o", "out", "Rgba8Unorm"⟩]
    parameters := [⟨"intensity", "float", ⟨1/2, 0x3F000000⟩, ⟨0, 0⟩, ⟨1, 0x3F800000⟩, "p"⟩]
    shader_path := "" }

/-- A parameter-value map overriding the single parameter. -/
def c5Values : List (String × F32) := [("intensity", ⟨3/4, 0x3F400000⟩)]

/-- Witness for C5 on the one-parameter manifest. -/
theorem C5_uniform_parameter_packing_witness :
    ∃ bg, (create_parameters_bind_group c5Config c5Values).2 = some bg ∧
      (create_pipeline_layout []
        (create_parameters_bind_group c5Config c5Values).1).length = 2 ∧
      bg.buffer.length % 16 = 0 ∧
      (∀ i p, c5Config.parameters.get? i = some p →
        (bg.buffer.drop (4 * i)).take 4 =
          ((c5Values.lookup p.name).getD p.default).toLeBytes) ∧
      bg.buffer.drop (4 * c5Config.parameters.length) =
        List.replicate ((16 - 4 * c5Config.parameters.length % 16) % 16) 0 :=
  (C5_uniform_parameter_packing c5Config c5Values []).2 (by decide)

lemma padded_ge (w : Nat) : 4 * w ≤ padded_bytes_per_row w := by
  unfold padded_bytes_per_row COPY_BYTES_PER_ROW_ALIGNMENT
  omega

lemma row_take_length (w h : Nat) (data : List Nat)
    (hlen : data.length = padded_bytes_per_row w * h) (y : Nat) (hy : y < h) :
    ((data.drop (y * padded_bytes_per_row w)).take (4 * w)).length = 4 * w := by
  set p := padded_bytes_per_row w with hp
  have h3 : 4 * w ≤ p := padded_ge w
  have h1 : (y + 1) * p ≤ h * p := Nat.mul_le_mul_right p hy
  have e1 : y * p + p = (y + 1) * p := by ring
  have e2 : h * p = p * h := Nat.mul_comm h p
  rw [List.length_take, List.length_drop, hlen]
  omega

lemma unpad_fold (w h : Nat) (data : List Nat)
    (hlen : data.length = padded_bytes_per_row w * h) :
    ∀ n, n ≤ h →
      (List.range n).foldl
        (fun rgba y => copySlice rgba (y * (4 * w))
          ((data.drop (y * padded_bytes_per_row w)).take (4 * w)))
        (List.replicate (w * h * 4) 0) =
      (List.range n).flatMap
          (fun y => (data.drop (y * padded_bytes_per_row w)).take (4 * w)) ++
        List.replicate ((h - n) * (4 * w)) 0 := by
  intro n
  induction n with
  | zero =>
    intro _
    simp only [List.range_zero, List.foldl_nil, List.flatMap_nil, List.nil_append,
      Nat.sub_zero]
    congr 1
    ring
  | succ n ih =>
    intro hn
    have hstep : List.range (n + 1) = List.range n ++ [n] := by
      have := List.range_succ (n := n)
      simpa using this
    rw [hstep, List.foldl_append, List.flatMap_append, ih (by omega)]
    set A := (List.range n).flatMap
      (fun y => (data.drop (y * padded_bytes_per_row w)).take (4 * w)) with hA
    have hAlen : A.length = 4 * w * n := by
      rw [hA]
      rw [flatMap_blocks_length _ (4 * w) (List.range n) fun y hy =>
        row_take_length w h data hlen y (lt_of_lt_of_le (List.mem_range.mp hy) (by omega))]
      rw [List.length_range]
    have hrow : ((data.drop (n * padded_bytes_per_row w)).take (4 * w)).length = 4 * w :=
      row_take_length w h data hlen n (by omega)
    simp only [List.foldl_cons, List.foldl_nil, List.flatMap_cons, List.flatMap_nil,
      List.append_nil]
    rw [copySlice, hrow]
    have hoff : n * (4 * w) = A.length := by rw [hAlen]; ring
    rw [hoff, List.take_left]
    have hdrop : (A ++ List.replicate ((h - n) * (4 * w)) 0).drop (A.length + 4 * w) =
        List.replicate ((h - (n + 1)) * (4 * w)) 0 := by
      rw [List.drop_append, List.drop_replicate]
      congr 1
      have hd : h - n = (h - (n + 1)) + 1 := by omega
      rw [hd]
      ring_nf
      omega
    rw [hdrop, List.append_assoc]

/-- C6: the readback unpadding produces a tightly packed buffer of exactly
`width*height*4` bytes in which row `y` equals bytes
`[y*p, y*p + 4*width)` of the padded staging buffer, where `p` is `4*width`
rounded up to the GPU copy row alignment. -/
theorem C6_readback_tight_packing (width height : Nat) (data : List Nat)
    (hlen : data.length = padded_bytes_per_row width * height) :
    (copy_texture_to_buffer_unpad width height data).length = width * height * 4 ∧
    ∀ y, y < height →
      ((copy_texture_to_buffer_unpad width height data).drop
          (y * (4 * width))).take (4 * width) =
        (data.drop (y * padded_bytes_per_row width)).take (4 * width) := by
  have hfold := unpad_fold width height data hlen height (le_refl height)
  have hmain : copy_texture_to_buffer_unpad width height data =
      (List.range height).flatMap
        (fun y => (data.drop (y * padded_bytes_per_row width)).take (4 * width)) := by
    unfold copy_texture_to_buffer_unpad
    rw [hfold]
    simp
  constructor
  · rw [hmain]
    rw [flatMap_blocks_length _ (4 * width) (List.range height) fun y hy =>
      row_take_length width height data hlen y (List.mem_range.mp hy)]
    rw [List.length_range]
    ring
  · intro y hy
    rw [hmain]
    have hslice := flatMap_blocks_get
      (fun y => (data.drop (y * padded_bytes_per_row width)).take (4 * width)) (4 * width)
      (List.range height)
      (fun a ha => row_take_length width height data hlen a (List.mem_range.mp ha))
      y y (List.get?_range hy)
    rw [Nat.mul_comm y (4 * width)]
    exact hslice

/-- Witness for C6: a 1x1 readback from a 256-byte padded staging row. -/
theorem C6_readback_tight_packing_witness :
    (copy_texture_to_buffer_unpad 1 1 (List.replicate 256 3)).length = 1 * 1 * 4 ∧
    ∀ y, y < 1 →
      ((copy_texture_to_buffer_unpad 1 1 (List.replicate 256 3)).drop
          (y * (4 * 1))).take (4 * 1) =
        ((List.replicate 256 3 : List Nat).drop (y * padded_bytes_per_row 1)).take (4 * 1) :=
  C6_readback_tight_packing 1 1 (List.replicate 256 3)
    (by rw [List.length_replicate]
        norm_num [padded_bytes_per_row, COPY_BYTES_PER_ROW_ALIGNMENT])

end ImageBaker
